import Mathlib

/-!
Shallow embedding of `rich/panel.py` (class `Panel`, methods `__console__`
and `__measure__`).  The collaborators that panel.py consumes but that live
outside this file's source — the console renderer (`Measurement.get`,
`Console.render_lines`, `Console.get_style`), the box-drawing styles
(`box.Box`) and the output unit (`Segment`) — are modelled abstractly: the
console is a record of the three functions the panel calls, a box is a
record of the glyphs and border generators the panel reads, and a segment
is a text run with an optional attached style.  Widths are `Int`, as Python
integers are unbounded and may go negative here.
-/

set_option autoImplicit false

universe u v

variable {R : Type u} {S : Type v}

/-- A `(minimum, maximum)` width pair, as produced by `Measurement.get`. -/
structure Measurement where
  minimum : Int
  maximum : Int
  deriving DecidableEq

/-- An atomic styled run of output text: the text plus an optional style
object (`none` when the segment carries no style, as in `Segment.line()`). -/
structure Segment (S : Type v) where
  text : String
  style : Option S
  deriving DecidableEq

/-- `Segment.line()`: a bare line-break segment with no style. -/
def Segment.line : Segment S := ⟨"\n", none⟩

/-- The slice of `ConsoleOptions` that panel.py reads and updates. -/
structure ConsoleOptions where
  max_width : Int
  deriving DecidableEq

/-- Modelled from the spec: `ConsoleOptions.update(width=w)` from
console.py (not under src/) derives child layout options whose maximum
width is the given width. -/
def ConsoleOptions.update (o : ConsoleOptions) (width : Int) : ConsoleOptions :=
  { o with max_width := width }

/-- The slice of `box.Box` that panel.py reads: the two vertical edge
glyphs and the top/bottom border-line generators, each taking a list of
column-segment widths. -/
structure Box where
  mid_left : String
  mid_right : String
  get_top : List Int → String
  get_bottom : List Int → String

/-- The external console renderer, abstracted to the three operations
panel.py invokes: style resolution, content measurement
(`Measurement.get(console, renderable, max_width)`), and line-wrapped
rendering (`console.render_lines(renderable, options)`). -/
structure Console (R : Type u) (S : Type v) where
  get_style : String → S
  measure : R → Int → Measurement
  render_lines : R → ConsoleOptions → List (List (Segment S))

/-- The `Panel` object: its five constructor-set fields. -/
structure Panel (R : Type u) where
  renderable : R
  box : Box
  expand : Bool
  style : String
  width : Option Int

/-- The first `width` computed in `Panel.__console__`:
`options.max_width if self.width is None else min(self.width, options.max_width)`. -/
def Panel.startWidth (p : Panel R) (o : ConsoleOptions) : Int :=
  match p.width with
  | none => o.max_width
  | some w => min w o.max_width

/-- `child_width` in `Panel.__console__`: `width - 2` if `self.expand`,
else `Measurement.get(console, self.renderable, width - 2).maximum`. -/
def Panel.childWidth (p : Panel R) (c : Console R S) (o : ConsoleOptions) : Int :=
  if p.expand then p.startWidth o - 2
  else (c.measure p.renderable (p.startWidth o - 2)).maximum

/-- The reassigned `width = child_width + 2` in `Panel.__console__`. -/
def Panel.outerWidth (p : Panel R) (c : Console R S) (o : ConsoleOptions) : Int :=
  p.childWidth c o + 2

/-- `child_options = options.update(width=child_width)` in `Panel.__console__`. -/
def Panel.childOptions (p : Panel R) (c : Console R S) (o : ConsoleOptions) : ConsoleOptions :=
  o.update (p.childWidth c o)

/-- `Panel.__console__`: the full segment sequence the generator yields, in
order — top border + line break, then per wrapped content line a styled
left edge, the line's own segments, and a styled right edge carrying the
line break, then bottom border + line break. -/
def Panel.console (p : Panel R) (c : Console R S) (o : ConsoleOptions) : List (Segment S) :=
  let style := c.get_style p.style
  let width := p.outerWidth c o
  let lines := c.render_lines p.renderable (p.childOptions c o)
  let line_start : Segment S := ⟨p.box.mid_left, some style⟩
  let line_end : Segment S := ⟨p.box.mid_right ++ "\n", some style⟩
  ⟨p.box.get_top [width - 2], some style⟩ :: Segment.line ::
    ((lines.flatMap fun line => line_start :: (line ++ [line_end])) ++
      [⟨p.box.get_bottom [width - 2], some style⟩, Segment.line])

/-- `Panel.__measure__`: `(max_width, max_width)` when `self.expand`, else
`Measurement.get(console, self.renderable, max_width - 2).maximum + 2`
used for both components. -/
def Panel.measure (p : Panel R) (c : Console R S) (max_width : Int) : Measurement :=
  if p.expand then ⟨max_width, max_width⟩
  else
    let width := (c.measure p.renderable (max_width - 2)).maximum + 2
    ⟨width, width⟩

/-- State-passing form of `Panel.__console__`: the method body assigns only
local variables and never writes to `self` or to its fields, so the
post-state of the receiver is the receiver itself. -/
def Panel.consoleSt (p : Panel R) (c : Console R S) (o : ConsoleOptions) :
    List (Segment S) × Panel R :=
  (p.console c o, p)

/-- State-passing form of `Panel.__measure__`: the body never writes to
`self`, so the post-state of the receiver is the receiver itself. -/
def Panel.measureSt (p : Panel R) (c : Console R S) (max_width : Int) :
    Measurement × Panel R :=
  (p.measure c max_width, p)

/-- Number of line-break characters carried by a segment. -/
def Segment.newlineCount (s : Segment S) : Nat :=
  s.text.data.count '\n'

/-- Number of line-break characters in a whole segment sequence — the
number of visual lines it produces, provided every text run is
newline-free apart from the explicit break markers. -/
def newlineTotal (segs : List (Segment S)) : Nat :=
  (segs.map Segment.newlineCount).sum

/-- Modelled from the spec: a rounded-corner box style (box.py is not
under src/); used only as a concrete fixture.  A border line is a corner
glyph, one horizontal glyph per column of each requested width, and the
other corner glyph. -/
def hline (w : Int) : String :=
  String.mk (List.replicate w.toNat '─')

/-- Concrete rounded-corner box fixture. -/
def roundedBox : Box where
  mid_left := "│"
  mid_right := "│"
  get_top := fun ws => "╭" ++ String.join (ws.map hline) ++ "╮"
  get_bottom := fun ws => "╰" ++ String.join (ws.map hline) ++ "╯"

/-- A concrete console fixture over string content and string styles:
style resolution is the identity, measurement reports the content length
capped at the available width (floored at zero) for both components, and
rendering yields the content as a single unstyled line. -/
def consoleW : Console String String where
  get_style := fun s => s
  measure := fun content w =>
    ⟨min (content.length : Int) (max w 0), min (content.length : Int) (max w 0)⟩
  render_lines := fun content _ => [[⟨content, none⟩]]

/-- Fixture: non-expanding panel around a short text. -/
def panelHello : Panel String :=
  ⟨"Hello, World!", roundedBox, false, "none", none⟩

/-- Fixture: a second panel built from the same field values as
`panelHello`, declared separately. -/
def panelHelloAgain : Panel String :=
  ⟨"Hello, World!", roundedBox, false, "none", none⟩

/-- Fixture: expanding panel with no fixed width. -/
def panelExpand : Panel String :=
  ⟨"Hello, World!", roundedBox, true, "none", none⟩

/-- Fixture: expanding panel with fixed width 10. -/
def panelFixed : Panel String :=
  ⟨"Hello, World!", roundedBox, true, "none", some 10⟩

/-- Fixture: a 39-character single-line content, longer than the widths it
is rendered at. -/
def longLine : String :=
  String.mk (List.replicate 39 'x')

/-- Fixture: non-expanding panel around `longLine`. -/
def panelLong : Panel String :=
  ⟨longLine, roundedBox, false, "none", none⟩

/-- Unfolding of the emitted sequence with the resolved style and the
computed child width made explicit: both border generators receive the
single-element list `[childWidth]`. -/
theorem Panel.console_eq (p : Panel R) (c : Console R S) (o : ConsoleOptions) :
    p.console c o =
      ⟨p.box.get_top [p.childWidth c o], some (c.get_style p.style)⟩ :: Segment.line ::
        (((c.render_lines p.renderable (p.childOptions c o)).flatMap fun line =>
            ⟨p.box.mid_left, some (c.get_style p.style)⟩ ::
              (line ++ [⟨p.box.mid_right ++ "\n", some (c.get_style p.style)⟩])) ++
          [⟨p.box.get_bottom [p.childWidth c o], some (c.get_style p.style)⟩, Segment.line]) := by
  simp only [Panel.console, Panel.outerWidth, Int.add_sub_cancel]

/-- C1: in every render call the outer width used for the emitted output is
recomputed as `childWidth + 2`, both border generators are invoked with the
single-element column list `[childWidth]` (never the raw requested width),
and the child width is `startWidth - 2` when `expand` is true, resp. the
renderer-measured maximum of the content at `startWidth - 2` when `expand`
is false. -/
theorem panel_c1_width_recompute (p : Panel R) (c : Console R S) (o : ConsoleOptions) :
    p.console c o =
      ⟨p.box.get_top [p.childWidth c o], some (c.get_style p.style)⟩ :: Segment.line ::
        (((c.render_lines p.renderable (p.childOptions c o)).flatMap fun line =>
            ⟨p.box.mid_left, some (c.get_style p.style)⟩ ::
              (line ++ [⟨p.box.mid_right ++ "\n", some (c.get_style p.style)⟩])) ++
          [⟨p.box.get_bottom [p.childWidth c o], some (c.get_style p.style)⟩, Segment.line]) ∧
    p.outerWidth c o = p.childWidth c o + 2 ∧
    (p.expand = true → p.childWidth c o = p.startWidth o - 2) ∧
    (p.expand = false →
      p.childWidth c o = (c.measure p.renderable (p.startWidth o - 2)).maximum) := by
  refine ⟨p.console_eq c o, rfl, ?_, ?_⟩ <;> intro h <;> simp [Panel.childWidth, h]

/-- C1 witness: at the expanding fixture with requested width 20 the child
width is 18 and the emitted outer width is 20. -/
theorem panel_c1_width_recompute_witness :
    panelExpand.expand = true ∧
    panelExpand.childWidth consoleW ⟨20⟩ = 18 ∧
    panelExpand.outerWidth consoleW ⟨20⟩ = 20 :=
  ⟨rfl,
    ((panel_c1_width_recompute panelExpand consoleW ⟨20⟩).2.2.1 rfl).trans (by decide),
    by decide⟩

/-- C2: `__measure__` returns `(maxWidth, maxWidth)` when `expand` is true,
and `(m + 2, m + 2)` with `m` the renderer-measured maximum of the content
at `maxWidth - 2` when `expand` is false; in both branches minimum equals
maximum. -/
theorem panel_c2_measure (p : Panel R) (c : Console R S) (mw : Int) :
    (p.expand = true → p.measure c mw = ⟨mw, mw⟩) ∧
    (p.expand = false →
      p.measure c mw =
        ⟨(c.measure p.renderable (mw - 2)).maximum + 2,
         (c.measure p.renderable (mw - 2)).maximum + 2⟩) ∧
    (p.measure c mw).minimum = (p.measure c mw).maximum := by
  refine ⟨fun h => by simp [Panel.measure, h], fun h => by simp [Panel.measure, h], ?_⟩
  by_cases h : p.expand <;> simp [Panel.measure, h]

/-- C2 witness: the expanding fixture measures `(40, 40)` at max width 40;
the non-expanding fixture around a 13-column text measures `(15, 15)`. -/
theorem panel_c2_measure_witness :
    panelExpand.expand = true ∧ panelExpand.measure consoleW 40 = ⟨40, 40⟩ ∧
    panelHello.expand = false ∧ panelHello.measure consoleW 40 = ⟨15, 15⟩ :=
  ⟨rfl, (panel_c2_measure panelExpand consoleW 40).1 rfl, rfl,
    ((panel_c2_measure panelHello consoleW 40).2.1 rfl).trans (by decide)⟩

/-- C4: the starting outer width is `options.max_width` when no fixed width
is set and `min(fixedWidth, options.max_width)` when it is; a fixed width
larger than `max_width` is capped at `max_width`; and with fixed width 10,
max width 40 and `expand` true, the rendered outer width is 10 and the
child width is 8. -/
theorem panel_c4_start_width (p : Panel R) (c : Console R S) (o : ConsoleOptions) (w : Int) :
    (p.width = none → p.startWidth o = o.max_width) ∧
    (p.width = some w → p.startWidth o = min w o.max_width) ∧
    (p.width = some w → o.max_width < w → p.startWidth o = o.max_width) ∧
    (p.width = some 10 → p.expand = true → o.max_width = 40 →
      p.outerWidth c o = 10 ∧ p.childWidth c o = 8) := by
  refine ⟨fun h => by simp [Panel.startWidth, h], fun h => by simp [Panel.startWidth, h],
    fun h hlt => ?_, fun h he hm => ?_⟩
  · simp only [Panel.startWidth, h]
    omega
  · simp [Panel.outerWidth, Panel.childWidth, Panel.startWidth, h, he, hm]

/-- C4 witness: the fixed-width-10 expanding fixture rendered at max width
40 has outer width 10 and child width 8, and the unfixed fixture starts
from the requested width. -/
theorem panel_c4_start_width_witness :
    panelFixed.width = some 10 ∧ panelFixed.expand = true ∧
    panelFixed.outerWidth consoleW ⟨40⟩ = 10 ∧ panelFixed.childWidth consoleW ⟨40⟩ = 8 ∧
    panelHello.width = none ∧ panelHello.startWidth ⟨40⟩ = 40 :=
  ⟨rfl, rfl, ((panel_c4_start_width panelFixed consoleW ⟨40⟩ 10).2.2.2 rfl rfl rfl).1,
    ((panel_c4_start_width panelFixed consoleW ⟨40⟩ 10).2.2.2 rfl rfl rfl).2,
    rfl, (panel_c4_start_width panelHello consoleW ⟨40⟩ 10).1 rfl⟩

/-- C5 counterexample: with a renderer whose measured maximum is capped at
the available width, a 39-column content in a non-expanding panel rendered
at max width 40 has outer width 40, while the claimed formula — the
renderer measurement of the content at `maxWidth` itself, plus 2 — gives
41. -/
theorem panel_c5_counterexample :
    ¬ panelLong.outerWidth consoleW ⟨40⟩ =
        (consoleW.measure panelLong.renderable 40).maximum + 2 := by
  decide

/-- C5 (amended): when `expand` is false and no fixed width is set, the
rendered outer width equals the renderer measurement of the content at
`maxWidth - 2` (not at `maxWidth`) plus 2, which is exactly the panel's own
`__measure__(maxWidth).maximum`. -/
theorem panel_c5_shrink_to_fit (p : Panel R) (c : Console R S) (o : ConsoleOptions)
    (hexp : p.expand = false) (hw : p.width = none) :
    p.outerWidth c o = (c.measure p.renderable (o.max_width - 2)).maximum + 2 ∧
    p.outerWidth c o = (p.measure c o.max_width).maximum := by
  simp [Panel.outerWidth, Panel.childWidth, Panel.startWidth, Panel.measure, hexp, hw]

/-- C5 witness: the non-expanding fixture around a 13-column text rendered
at max width 40 has outer width 15, agreeing with its own measurement. -/
theorem panel_c5_shrink_to_fit_witness :
    panelHello.expand = false ∧ panelHello.width = none ∧
    panelHello.outerWidth consoleW ⟨40⟩ = 15 ∧
    panelHello.outerWidth consoleW ⟨40⟩ = (panelHello.measure consoleW 40).maximum :=
  ⟨rfl, rfl,
    ((panel_c5_shrink_to_fit panelHello consoleW ⟨40⟩ rfl rfl).1).trans (by decide),
    (panel_c5_shrink_to_fit panelHello consoleW ⟨40⟩ rfl rfl).2⟩

/-- Concatenating strings concatenates their character data. -/
theorem string_append_data (a b : String) : (a ++ b).data = a.data ++ b.data := by
  cases a
  cases b
  rfl

/-- `newlineTotal` is additive under concatenation. -/
theorem newlineTotal_append (a b : List (Segment S)) :
    newlineTotal (a ++ b) = newlineTotal a + newlineTotal b := by
  simp [newlineTotal]

/-- A sequence of newline-free segments contributes no visual lines. -/
theorem newlineTotal_eq_zero (l : List (Segment S))
    (h : ∀ seg ∈ l, Segment.newlineCount seg = 0) : newlineTotal l = 0 := by
  unfold newlineTotal
  apply List.sum_eq_zero
  intro x hx
  obtain ⟨seg, hseg, rfl⟩ := List.mem_map.mp hx
  exact h seg hseg

/-- Each content-line block — newline-free left edge, newline-free content
segments, right edge carrying exactly one line break — contributes exactly
one visual line, so the blocks together contribute one line per wrapped
content line. -/
theorem newlineTotal_blocks (ls : List (List (Segment S))) (a b : Segment S)
    (ha : a.newlineCount = 0) (hb : b.newlineCount = 1)
    (h : ∀ line ∈ ls, ∀ seg ∈ line, Segment.newlineCount seg = 0) :
    newlineTotal (ls.flatMap fun line => a :: (line ++ [b])) = ls.length := by
  induction ls with
  | nil => simp [newlineTotal]
  | cons l ls ih =>
    rw [List.flatMap_cons, newlineTotal_append]
    have hl : newlineTotal (a :: (l ++ [b])) = 1 := by
      have h0 : newlineTotal l = 0 :=
        newlineTotal_eq_zero l (h l (List.mem_cons_self l ls))
      simp only [newlineTotal, List.map_cons, List.sum_cons, List.map_append,
        List.sum_append, List.map_nil, List.sum_nil] at h0 ⊢
      simp [ha, hb, h0]
    rw [hl, ih fun line hline => h line (List.mem_cons_of_mem l hline)]
    simp [List.length_cons]
    omega

/-- The line-break string holds exactly one newline character. -/
theorem newline_data_count : ("\n").data.count '\n' = 1 := by decide

/-- C3: the emitted segment sequence is exactly, in order: the styled top
border plus a line break, then for each wrapped content line a styled left
edge, the line's segments unchanged, and a styled right edge carrying the
line break, then the styled bottom border plus a line break; provided the
border glyphs and content segments are newline-free, the number of emitted
visual lines is the number of wrapped content lines plus 2. -/
theorem panel_c3_segment_sequence (p : Panel R) (c : Console R S) (o : ConsoleOptions)
    (htop : (p.box.get_top [p.childWidth c o]).data.count '\n' = 0)
    (hbot : (p.box.get_bottom [p.childWidth c o]).data.count '\n' = 0)
    (hml : p.box.mid_left.data.count '\n' = 0)
    (hmr : p.box.mid_right.data.count '\n' = 0)
    (hcontent : ∀ line ∈ c.render_lines p.renderable (p.childOptions c o),
      ∀ seg ∈ line, Segment.newlineCount seg = 0) :
    p.console c o =
      ⟨p.box.get_top [p.childWidth c o], some (c.get_style p.style)⟩ :: Segment.line ::
        (((c.render_lines p.renderable (p.childOptions c o)).flatMap fun line =>
            ⟨p.box.mid_left, some (c.get_style p.style)⟩ ::
              (line ++ [⟨p.box.mid_right ++ "\n", some (c.get_style p.style)⟩])) ++
          [⟨p.box.get_bottom [p.childWidth c o], some (c.get_style p.style)⟩, Segment.line]) ∧
    newlineTotal (p.console c o) =
      (c.render_lines p.renderable (p.childOptions c o)).length + 2 := by
  refine ⟨p.console_eq c o, ?_⟩
  rw [p.console_eq c o]
  have hlc : (Segment.line : Segment S).newlineCount = 1 := by
    simp [Segment.line, Segment.newlineCount, newline_data_count]
  have hb :
      (Segment.mk (p.box.mid_right ++ "\n")
        (some (c.get_style p.style)) : Segment S).newlineCount = 1 := by
    simp only [Segment.newlineCount, string_append_data, List.count_append, hmr,
      Nat.zero_add]
    decide
  have hblocks :=
    newlineTotal_blocks (c.render_lines p.renderable (p.childOptions c o))
      ⟨p.box.mid_left, some (c.get_style p.style)⟩
      ⟨p.box.mid_right ++ "\n", some (c.get_style p.style)⟩
      (by simpa [Segment.newlineCount] using hml) hb hcontent
  unfold newlineTotal at hblocks ⊢
  simp only [List.map_cons, List.sum_cons, List.map_append, List.sum_append,
    List.map_nil, List.sum_nil, hblocks, hlc]
  have h1 : Segment.newlineCount
      (⟨p.box.get_top [p.childWidth c o], some (c.get_style p.style)⟩ : Segment S) = 0 := by
    simpa [Segment.newlineCount] using htop
  have h2 : Segment.newlineCount
      (⟨p.box.get_bottom [p.childWidth c o], some (c.get_style p.style)⟩ : Segment S) = 0 := by
    simpa [Segment.newlineCount] using hbot
  rw [h1, h2]
  omega

/-- C3 witness: the expanding fixture rendered at max width 20 satisfies
the newline-freeness hypotheses and emits one content line plus two border
lines. -/
theorem panel_c3_segment_sequence_witness :
    (panelExpand.box.get_top [panelExpand.childWidth consoleW ⟨20⟩]).data.count '\n' = 0 ∧
    (panelExpand.box.get_bottom [panelExpand.childWidth consoleW ⟨20⟩]).data.count '\n' = 0 ∧
    panelExpand.box.mid_left.data.count '\n' = 0 ∧
    panelExpand.box.mid_right.data.count '\n' = 0 ∧
    newlineTotal (panelExpand.console consoleW ⟨20⟩) =
      (consoleW.render_lines panelExpand.renderable
        (panelExpand.childOptions consoleW ⟨20⟩)).length + 2 :=
  ⟨by decide, by decide, by decide, by decide,
    (panel_c3_segment_sequence panelExpand consoleW ⟨20⟩ (by decide) (by decide)
      (by decide) (by decide) (by decide)).2⟩

/-- C6: no width is validated or clamped — for any requested width below 2
the inner width `maxWidth - 2` is negative and is handed unchanged to the
renderer measurement and to the child layout options; both operations are
total functions, so no degenerate width makes them fail. -/
theorem panel_c6_no_clamping (p : Panel R) (c : Console R S) (o : ConsoleOptions) (mw : Int)
    (hmw : mw < 2) (ho : o.max_width < 2) (hw : p.width = none) :
    mw - 2 < 0 ∧
    (p.expand = false →
      p.measure c mw =
        ⟨(c.measure p.renderable (mw - 2)).maximum + 2,
         (c.measure p.renderable (mw - 2)).maximum + 2⟩) ∧
    (p.expand = true →
      p.childWidth c o = o.max_width - 2 ∧ p.childWidth c o < 0) ∧
    (p.expand = false →
      p.childWidth c o = (c.measure p.renderable (o.max_width - 2)).maximum) ∧
    (p.childOptions c o).max_width = p.childWidth c o := by
  refine ⟨by omega, fun h => by simp [Panel.measure, h], fun h => ?_,
    fun h => by simp [Panel.childWidth, Panel.startWidth, h, hw], rfl⟩
  have hcw : p.childWidth c o = o.max_width - 2 := by
    simp [Panel.childWidth, Panel.startWidth, h, hw]
  exact ⟨hcw, by omega⟩

/-- C6 witness: at requested width 0 the expanding fixture's child width is
the negative value -2, passed as-is into the child options. -/
theorem panel_c6_no_clamping_witness :
    (0 : Int) < 2 ∧ (0 : Int) - 2 < 0 ∧
    panelExpand.childWidth consoleW ⟨0⟩ = -2 ∧
    (panelExpand.childOptions consoleW ⟨0⟩).max_width = panelExpand.childWidth consoleW ⟨0⟩ :=
  ⟨by decide, (panel_c6_no_clamping panelExpand consoleW ⟨0⟩ 0 (by decide) (by decide) rfl).1,
    (((panel_c6_no_clamping panelExpand consoleW ⟨0⟩ 0 (by decide) (by decide) rfl).2.2.1
      rfl).1).trans (by decide),
    (panel_c6_no_clamping panelExpand consoleW ⟨0⟩ 0 (by decide) (by decide) rfl).2.2.2.2⟩

/-- C7: rendering is a deterministic function of its inputs — two render
calls on the same console and options with panels whose five fields are
equal produce the same segment sequence. -/
theorem panel_c7_deterministic (p₁ p₂ : Panel R) (c : Console R S) (o : ConsoleOptions)
    (hr : p₁.renderable = p₂.renderable) (hb : p₁.box = p₂.box)
    (he : p₁.expand = p₂.expand) (hs : p₁.style = p₂.style) (hw : p₁.width = p₂.width) :
    p₁.console c o = p₂.console c o := by
  cases p₁
  cases p₂
  simp only at hr hb he hs hw
  subst hr hb he hs hw
  rfl

/-- C7 witness: two separately declared panels with the same field values
render to the same segment sequence. -/
theorem panel_c7_deterministic_witness :
    panelHello.renderable = panelHelloAgain.renderable ∧
    panelHello.box = panelHelloAgain.box ∧
    panelHello.expand = panelHelloAgain.expand ∧
    panelHello.style = panelHelloAgain.style ∧
    panelHello.width = panelHelloAgain.width ∧
    panelHello.console consoleW ⟨40⟩ = panelHelloAgain.console consoleW ⟨40⟩ :=
  ⟨rfl, rfl, rfl, rfl, rfl,
    panel_c7_deterministic panelHello panelHelloAgain consoleW ⟨40⟩ rfl rfl rfl rfl rfl⟩

/-- C8: neither render nor measure mutates the panel — in the
state-passing form of both methods the post-state receiver is the input
panel, each field is unchanged, and any composed sequence of calls leaves
the panel as it started. -/
theorem panel_c8_no_mutation (p : Panel R) (c : Console R S) (o : ConsoleOptions) (mw : Int) :
    (p.consoleSt c o).2 = p ∧ (p.measureSt c mw).2 = p ∧
    (p.consoleSt c o).2.renderable = p.renderable ∧
    (p.consoleSt c o).2.box = p.box ∧
    (p.consoleSt c o).2.expand = p.expand ∧
    (p.consoleSt c o).2.style = p.style ∧
    (p.consoleSt c o).2.width = p.width ∧
    (((p.consoleSt c o).2.measureSt c mw).2.consoleSt c o).2 = p :=
  ⟨rfl, rfl, rfl, rfl, rfl, rfl, rfl, rfl⟩

/-- C9: `__measure__` never reads the `width` field — panels differing only
in `width` measure identically, and a panel with a small fixed width still
measures `(maxWidth, maxWidth)` when `expand` is true. -/
theorem panel_c9_measure_ignores_width (p₁ p₂ : Panel R) (c : Console R S) (mw : Int)
    (hr : p₁.renderable = p₂.renderable) (_hb : p₁.box = p₂.box)
    (he : p₁.expand = p₂.expand) (_hs : p₁.style = p₂.style) :
    p₁.measure c mw = p₂.measure c mw ∧
    (p₁.expand = true → p₁.measure c mw = ⟨mw, mw⟩) := by
  constructor
  · simp [Panel.measure, hr, he]
  · intro h
    simp [Panel.measure, h]

/-- C9 witness: the fixed-width-10 expanding fixture and the unfixed
expanding fixture measure identically, namely `(40, 40)`, at max width
40. -/
theorem panel_c9_measure_ignores_width_witness :
    panelFixed.width = some 10 ∧ panelExpand.width = none ∧
    panelFixed.measure consoleW 40 = panelExpand.measure consoleW 40 ∧
    panelFixed.measure consoleW 40 = ⟨40, 40⟩ :=
  ⟨rfl, rfl,
    (panel_c9_measure_ignores_width panelFixed panelExpand consoleW 40 rfl rfl rfl rfl).1,
    (panel_c9_measure_ignores_width panelFixed panelExpand consoleW 40 rfl rfl rfl rfl).2 rfl⟩

/-- C10: the border style is resolved once from the panel's style name and
that one resolved style is attached to the top border, every left and right
edge, and the bottom border, whose generators receive the identical
argument `[childWidth]`; every other emitted segment is either the bare
line-break marker or a content segment passed through unchanged. -/
theorem panel_c10_single_style (p : Panel R) (c : Console R S) (o : ConsoleOptions) :
    p.console c o =
      ⟨p.box.get_top [p.childWidth c o], some (c.get_style p.style)⟩ :: Segment.line ::
        (((c.render_lines p.renderable (p.childOptions c o)).flatMap fun line =>
            ⟨p.box.mid_left, some (c.get_style p.style)⟩ ::
              (line ++ [⟨p.box.mid_right ++ "\n", some (c.get_style p.style)⟩])) ++
          [⟨p.box.get_bottom [p.childWidth c o], some (c.get_style p.style)⟩, Segment.line]) ∧
    ∀ seg ∈ p.console c o,
      seg.style = some (c.get_style p.style) ∨ seg = Segment.line ∨
        ∃ line ∈ c.render_lines p.renderable (p.childOptions c o), seg ∈ line := by
  refine ⟨p.console_eq c o, ?_⟩
  intro seg hseg
  rw [p.console_eq c o] at hseg
  simp only [List.mem_cons, List.mem_append, List.mem_flatMap, List.mem_singleton,
    List.not_mem_nil, or_false] at hseg
  rcases hseg with h | h | ⟨l, hl, hm⟩ | h | h
  · exact Or.inl (by rw [h])
  · exact Or.inr (Or.inl h)
  · rcases hm with h | h | h
    · exact Or.inl (by rw [h])
    · exact Or.inr (Or.inr ⟨l, hl, h⟩)
    · exact Or.inl (by rw [h])
  · exact Or.inl (by rw [h])
  · exact Or.inr (Or.inl h)

/-- C10 witness: in the non-expanding fixture's output at max width 40 the
left-edge segment carries exactly the resolved border style. -/
theorem panel_c10_single_style_witness :
    (Segment.mk "│" (some "none") : Segment String).style =
        some (consoleW.get_style "none") ∨
      (Segment.mk "│" (some "none") : Segment String) = Segment.line ∨
      ∃ line ∈ consoleW.render_lines panelHello.renderable
          (panelHello.childOptions consoleW ⟨40⟩),
        (Segment.mk "│" (some "none") : Segment String) ∈ line :=
  (panel_c10_single_style panelHello consoleW ⟨40⟩).2 ⟨"│", some "none"⟩ (by decide)
